import Mathlib

/-!
Shallow embedding of `src/rc/models/drqa.py` (the DrQA Document Reader
network: conditional model assembly and the forward tensor pipeline).

Tensors are embedded as nested lists of rationals:
a vector is `List ℚ`, a (len, dim) matrix is `List (List ℚ)`, and a
batched (batch, len, dim) tensor is a list of matrices.  The external
sub-modules from `src/layers` (character encoder, stacked bidirectional
RNNs, attention matchers, linear/bilinear scorers) are out of scope of the
repository under verification and are represented by abstract function
fields; the small helpers `layers.dropout`, `layers.uniform_weights` and
`layers.weighted_avg` are modelled from the spec where noted.
-/

abbrev Vec := List ℚ
abbrev Mat := List Vec
abbrev Ten3 := List Mat
abbrev Mask := List Bool
abbrev BMask := List Mask

/-- Elementwise sum of two vectors (truncating, as `List.zipWith`). -/
def vecAdd (a b : Vec) : Vec := List.zipWith (· + ·) a b

/-- Scale a vector by a rational. -/
def vecScale (c : ℚ) (v : Vec) : Vec := v.map (fun x => c * x)

/-- Sum of a list of (same-length) vectors; empty list sums to `[]`. -/
def sumVecs : List Vec → Vec
  | [] => []
  | [v] => v
  | v :: vs => vecAdd v (sumVecs vs)

/-- Weighted sum of the rows of a matrix: `Σ_j w_j · m_j`. -/
def weightedSumRows (w : Vec) (m : Mat) : Vec :=
  sumVecs (List.zipWith vecScale w m)

/-- Concatenation along the last (width) axis of two batched tensors,
embedding `torch.cat([a, b], 2)`. -/
def cat2 (a b : Ten3) : Ten3 :=
  List.zipWith (fun m1 m2 => List.zipWith (· ++ ·) m1 m2) a b

/-- Apply a vector-to-vector map at every (batch, position) slot,
embedding a per-token layer such as `nn.Linear` applied to the last axis. -/
def lin3 (f : Vec → Vec) (x : Ten3) : Ten3 := x.map (fun m => m.map f)

/-- Elementwise rectifier, embedding `F.relu`. -/
def relu3 (x : Ten3) : Ten3 :=
  x.map (fun m => m.map (fun row => row.map (fun v => max v 0)))

/-- Elementwise dropout-mask application: entry (b, i, j) is multiplied by
`scale * mk b i j`, where `mk` is the sampled mask stream. -/
def applyMask3 (mk : Nat → Nat → Nat → ℚ) (scale : ℚ) (x : Ten3) : Ten3 :=
  x.mapIdx fun b m => m.mapIdx fun i row => row.mapIdx fun j v => scale * mk b i j * v

/-- Dropout-mask application with one mask value shared across the whole
embedding axis of a token (axis 2), so an entire token vector is kept or
zeroed together. -/
def applyMaskShared (mk : Nat → Nat → ℚ) (scale : ℚ) (x : Ten3) : Ten3 :=
  x.mapIdx fun b m => m.mapIdx fun i row => row.map (fun v => scale * mk b i * v)

/-- Modelled from the spec: `layers.dropout(x, p, shared_axes, training)`
from the external `src/layers` module (absent from `src/`).  Standard
elementwise dropout with keep-scaling `1/(1-p)`, or, when word-level
dropout is configured (`shared_axes = [2]`), a mask shared across the
embedding-dimension axis; the identity when not training or `p ≤ 0`. -/
def layersDropout (x : Ten3) (p : ℚ) (wordLevel : Bool) (training : Bool)
    (mk3 : Nat → Nat → Nat → ℚ) (mk2 : Nat → Nat → ℚ) : Ten3 :=
  if training ∧ 0 < p then
    if wordLevel then applyMaskShared mk2 (1 / (1 - p)) x
    else applyMask3 mk3 (1 / (1 - p)) x
  else x

/-- Embedding of `torch.nn.functional.dropout(x, p, training)`: dropout
with probability `p` and keep-scaling `1/(1-p)` when training, identity
otherwise.  Call sites that omit `p` use the framework default `1/2`. -/
def Fdropout (x : Ten3) (p : ℚ) (training : Bool) (mk : Nat → Nat → Nat → ℚ) : Ten3 :=
  if training ∧ 0 < p then applyMask3 mk (1 / (1 - p)) x else x

/-- Sampled dropout-mask streams consumed by one forward call, one stream
per dropout site (embedding dropout and feed-forward dropout for each of
the question/document sides). -/
structure Noise where
  embQ : Nat → Nat → Nat → ℚ
  embD : Nat → Nat → Nat → ℚ
  embQs : Nat → Nat → ℚ
  embDs : Nat → Nat → ℚ
  ffD : Nat → Nat → Nat → ℚ
  ffQ : Nat → Nat → Nat → ℚ

/-- The configuration record read by `DrQA.__init__` / `DrQA.forward`. -/
structure Config where
  hidden_size : Nat
  num_layers : Nat
  char_embed : Nat
  num_features : Nat
  fix_embeddings : Bool
  use_qemb : Bool
  doc_self_attn : Bool
  resize_rnn_input : Bool
  span_dependency : Bool
  concat_rnn_layers : Bool
  rnn_padding : Bool
  variational_dropout : Bool
  word_dropout : Bool
  dropout_rnn_output : Bool
  question_merge : String
  rnn_type : String
  char_layer_kind : String
  filter_height : Nat
  dropout_emb : ℚ
  dropout_rnn : ℚ
  dropout_ff : ℚ
  dropout_char : ℚ

/-- An `nn.Embedding`-style table: a weight matrix (token id → row) whose
parameters carry a single trainability flag (`requires_grad`). -/
structure Embedding where
  weight : Mat
  embedding_dim : Nat
  requires_grad : Bool

/-- Row lookup in an embedding table for a batch of id sequences. -/
def embLookup3 (e : Embedding) (ids : List (List Nat)) : Ten3 :=
  ids.map (fun row => row.map (fun i => e.weight.getD i []))

/-- The per-example character-index lookup table (`ex['c_layer_lookup']`,
an `nn.Embedding` of shape (unique_words + 1, char_embed) whose row 0 is
the padding row). -/
structure Lookup where
  weight : Mat

/-- Row lookup in the character lookup table for a batch of id sequences. -/
def lookupApply (lk : Lookup) (ids : List (List Nat)) : Ten3 :=
  ids.map (fun row => row.map (fun i => lk.weight.getD i []))

/-- Behaviour of the external character encoder: per-unique-word character
indices and mask (plus the training flag and dropout randomness it may
consume internally) to one encoded vector per unique word. -/
abbrev CharF := List (List Nat) → List (List Bool) → Bool → Noise → Mat

/-- Behaviour of an external sequence-attention matcher
(`layers.SeqAttnMatch`): (x, y, y_mask) → per-x-position weighted y. -/
abbrev AttnF := Ten3 → Ten3 → BMask → Ten3

/-- Behaviour of an external linear layer applied to the last axis. -/
abbrev LinF := Vec → Vec

/-- Behaviour of an external stacked bidirectional RNN encoder
(`layers.StackedBRNN`): (x, x_mask, training, randomness) → hiddens. -/
abbrev RnnF := Ten3 → BMask → Bool → Noise → Ten3

/-- Behaviour of an external linear self-attention merger
(`layers.LinearSeqAttn`): (x, x_mask) → per-batch weight vector. -/
abbrev MergeF := Ten3 → BMask → List Vec

/-- Behaviour of an external bilinear sequence-attention scorer
(`layers.BilinearSeqAttn`): (x, y, x_mask) → per-batch score vector over
the positions of x. -/
abbrev BilinF := Ten3 → List Vec → BMask → List Vec

/-- The constructed character-embedding layer
(`layers.CharEmbeddingLayer`).  Modelled from the spec: the external
constructor stores the character-embedding table given to it together
with its sizes; its forward behaviour stays abstract. -/
structure CharLayer where
  char_embedding : Option Embedding
  input_size : Nat
  hidden_size : Nat
  F : CharF

/-- The external sub-module library (`src.layers`, absent from `src/`):
constructors taking the widths computed by `DrQA.__init__` and returning
the behaviour of the freshly allocated module, plus the numeric
exponential primitive `torch.exp`. -/
structure Bank where
  charF : CharF
  mkSeqAttnMatch : Nat → AttnF
  mkLinear : Nat → Nat → LinF
  mkStackedBRNN : Nat → Config → RnnF
  mkLinearSeqAttn : Nat → MergeF
  mkBilinearSeqAttn : Nat → Nat → BilinF
  texp : ℚ → ℚ

/-- The assembled DrQA network: the configuration, the (possibly frozen)
word-embedding table, and each sub-module, the conditional ones as
`Option` fields fixed at construction. -/
structure DrQA where
  config : Config
  w_embedding : Embedding
  char_layer : Option CharLayer
  qemb_match : Option AttnF
  doc_linear : Option LinF
  q_linear : Option LinF
  doc_rnn : RnnF
  question_rnn : RnnF
  doc_self_attn : Option AttnF
  self_attn : Option MergeF
  start_attn : BilinF
  end_attn : BilinF
  texp : ℚ → ℚ

/-- Effective per-token embedding width (`input_w_dim`, drqa.py line 17):
word-embedding width plus `char_embed` (which is 0 when character
embedding is disabled). -/
def input_w_dim (cfg : Config) (wdim : Nat) : Nat := wdim + cfg.char_embed

/-- Document-encoder input width (drqa.py lines 39-47): embedding width
plus manual-feature count, plus the embedding width again under
question-aware augmentation; replaced by the hidden width under input
projection. -/
def doc_input_size (cfg : Config) (wdim : Nat) : Nat :=
  let d := input_w_dim cfg wdim + cfg.num_features
  let d := if cfg.use_qemb then d + input_w_dim cfg wdim else d
  if cfg.resize_rnn_input then cfg.hidden_size else d

/-- Question-encoder input width (drqa.py lines 18 and 47). -/
def q_input_size (cfg : Config) (wdim : Nat) : Nat :=
  if cfg.resize_rnn_input then cfg.hidden_size else input_w_dim cfg wdim

/-- Pre-projection document-encoder input width, the width received by
`doc_linear` (drqa.py lines 39-45). -/
def doc_input_size_preresize (cfg : Config) (wdim : Nat) : Nat :=
  let d := input_w_dim cfg wdim + cfg.num_features
  if cfg.use_qemb then d + input_w_dim cfg wdim else d

/-- Question-encoder output width (drqa.py lines 79-82). -/
def question_hidden_size (cfg : Config) : Nat :=
  let q := 2 * cfg.hidden_size
  if cfg.concat_rnn_layers then q * cfg.num_layers else q

/-- Document-encoder output width before the self-attention widening,
the width received by the `doc_self_attn` matcher (drqa.py lines 78-85). -/
def doc_hidden_size_preattn (cfg : Config) : Nat :=
  let d := 2 * cfg.hidden_size
  if cfg.concat_rnn_layers then d * cfg.num_layers else d

/-- Document-encoder output width (drqa.py lines 78-86), widened by the
question width under document self-attention. -/
def doc_hidden_size (cfg : Config) : Nat :=
  let d := 2 * cfg.hidden_size
  let d := if cfg.concat_rnn_layers then d * cfg.num_layers else d
  if cfg.doc_self_attn then d + question_hidden_size cfg else d

/-- Width of the question vector consumed by the end scorer
(drqa.py line 99). -/
def q_rep_size (cfg : Config) : Nat :=
  if cfg.span_dependency then question_hidden_size cfg + doc_hidden_size cfg
  else question_hidden_size cfg

/-- One construction-time event of `DrQA.__init__`: a weight-allocating
sub-module construction, or the configuration error raised for an invalid
`question_merge`. -/
inductive InitEvent where
  | allocCharLayer
  | allocQembMatch
  | allocDocLinear
  | allocQLinear
  | allocDocRnn
  | allocQuestionRnn
  | allocDocSelfAttn
  | raiseNotImplemented (msg : String)
  | allocSelfAttn
  | allocStartAttn
  | allocEndAttn
deriving DecidableEq

/-- Whether an init event allocates sub-module weights. -/
def InitEvent.isAlloc : InitEvent → Bool
  | .raiseNotImplemented _ => false
  | _ => true

/-- Whether an init event is the raised configuration error. -/
def InitEvent.isRaise : InitEvent → Bool
  | .raiseNotImplemented _ => true
  | _ => false

/-- The sequence of construction events of `DrQA.__init__` in source
order (drqa.py lines 23-103): conditional sub-modules, the two encoders,
the optional document self-attention, then the `question_merge` check
(line 89) which raises on an invalid value and thereby cuts off the
remaining allocations (merger, start scorer, end scorer). -/
def initEvents (cfg : Config) : List InitEvent :=
  (if 0 < cfg.char_embed then [.allocCharLayer] else []) ++
  (if cfg.use_qemb then [.allocQembMatch] else []) ++
  (if cfg.resize_rnn_input then [.allocDocLinear, .allocQLinear] else []) ++
  [.allocDocRnn, .allocQuestionRnn] ++
  (if cfg.doc_self_attn then [.allocDocSelfAttn] else []) ++
  (if cfg.question_merge ∉ ["avg", "self_attn"] then
    [.raiseNotImplemented cfg.question_merge]
  else
    (if cfg.question_merge = "self_attn" then [.allocSelfAttn] else []) ++
    [.allocStartAttn, .allocEndAttn])

/-- Embedding of `DrQA.__init__` (drqa.py lines 11-103): freezes the word
embeddings when configured, conditionally allocates the optional
sub-modules with the widths of the source, checks `question_merge` and
fails with the configuration error on an invalid value, otherwise returns
the fully assembled model. -/
def DrQA.init (bank : Bank) (cfg : Config) (w_emb : Embedding)
    (c_emb : Option Embedding) : Except String DrQA :=
  let iwd := input_w_dim cfg w_emb.embedding_dim
  let w_emb := if cfg.fix_embeddings then { w_emb with requires_grad := false } else w_emb
  let char_layer : Option CharLayer :=
    if 0 < cfg.char_embed then
      some { char_embedding := c_emb, input_size := cfg.char_embed,
             hidden_size := cfg.char_embed, F := bank.charF }
    else none
  let qemb_match := if cfg.use_qemb then some (bank.mkSeqAttnMatch iwd) else none
  let doc_linear :=
    if cfg.resize_rnn_input then
      some (bank.mkLinear (doc_input_size_preresize cfg w_emb.embedding_dim) cfg.hidden_size)
    else none
  let q_linear :=
    if cfg.resize_rnn_input then some (bank.mkLinear iwd cfg.hidden_size) else none
  let doc_rnn := bank.mkStackedBRNN (doc_input_size cfg w_emb.embedding_dim) cfg
  let question_rnn := bank.mkStackedBRNN (q_input_size cfg w_emb.embedding_dim) cfg
  let doc_self_attn :=
    if cfg.doc_self_attn then
      some (bank.mkSeqAttnMatch (doc_hidden_size_preattn cfg))
    else none
  if cfg.question_merge ∉ ["avg", "self_attn"] then
    Except.error ("question_merge = " ++ cfg.question_merge)
  else
    let self_attn :=
      if cfg.question_merge = "self_attn" then
        some (bank.mkLinearSeqAttn (question_hidden_size cfg))
      else none
    let start_attn := bank.mkBilinearSeqAttn (doc_hidden_size cfg) (question_hidden_size cfg)
    let end_attn := bank.mkBilinearSeqAttn (doc_hidden_size cfg) (q_rep_size cfg)
    Except.ok
      { config := cfg, w_embedding := w_emb, char_layer := char_layer,
        qemb_match := qemb_match, doc_linear := doc_linear, q_linear := q_linear,
        doc_rnn := doc_rnn, question_rnn := question_rnn,
        doc_self_attn := doc_self_attn, self_attn := self_attn,
        start_attn := start_attn, end_attn := end_attn, texp := bank.texp }

/-- The batched forward input (`ex` in `DrQA.forward`, drqa.py lines
105-121): word indices and masks for question and document, manual
features, gold targets, and the optional character fields. -/
structure Example where
  xq : List (List Nat)
  xq_mask : BMask
  xd : List (List Nat)
  xd_f : Ten3
  xd_mask : BMask
  targets : List Int
  chunk_targets : List Int
  c_emb : List (List Nat)
  c_emb_mask : List (List Bool)
  c_layer_lookup : Lookup
  xqc : List (List Nat)
  xdc : List (List Nat)

/-- The mapping returned by `DrQA.forward` (drqa.py lines 185-189). -/
structure Output where
  score_s : List Vec
  score_e : List Vec
  targets : List Int
  chunk_target_acc : ℚ
  chunk_any_acc : ℚ
deriving DecidableEq

/-- Modelled from the spec: `layers.uniform_weights(x, x_mask)` from the
external `src/layers` module (absent from `src/`): per batch row, weight
`1 / (count of valid positions)` at each unmasked position and `0` at
padding (mask value `true` marks padding). -/
def uniform_weights (_x : Ten3) (mask : BMask) : List Vec :=
  mask.map (fun mrow =>
    let c : ℚ := (mrow.countP (fun b => !b) : Nat)
    mrow.map (fun b => if b then 0 else 1 / c))

/-- Modelled from the spec: `layers.weighted_avg(x, weights)` from the
external `src/layers` module (absent from `src/`): reduces
(batch, len, width) to (batch, width) by the weighted sum `Σ_j w_j · x_j`
per batch row. -/
def weighted_avg (x : Ten3) (w : List Vec) : List Vec :=
  (x.zip w).map (fun p => weightedSumRows p.2 p.1)

/-- The expected document representation under the start distribution
(drqa.py line 180): per batch row, `Σ_i texp(score_i) · doc_i`, embedding
`(doc_hiddens * start_scores.exp().unsqueeze(2)).sum(1)` with `texp` the
exponential primitive. -/
def expectedDocB (texp : ℚ → ℚ) (doc : Ten3) (scores : List Vec) : List Vec :=
  (doc.zip scores).map (fun p => weightedSumRows (p.2.map texp) p.1)

/-- The validity-ratio statistic (drqa.py line 183):
`(ex['chunk_targets'] >= 0).float().sum() / len(ex['chunk_targets'])`. -/
def chunkAcc (ts : List Int) : ℚ :=
  ((ts.countP (fun t => decide (0 ≤ t)) : Nat) : ℚ) / ((ts.length : Nat) : ℚ)

/-- Question word embeddings after embedding dropout
(drqa.py lines 124-128). -/
def xqEmbD (m : DrQA) (tr : Bool) (r : Noise) (ex : Example) : Ten3 :=
  layersDropout (embLookup3 m.w_embedding ex.xq) m.config.dropout_emb
    m.config.word_dropout tr r.embQ r.embQs

/-- Document word embeddings after embedding dropout
(drqa.py lines 125-129). -/
def xdEmbD (m : DrQA) (tr : Bool) (r : Noise) (ex : Example) : Ten3 :=
  layersDropout (embLookup3 m.w_embedding ex.xd) m.config.dropout_emb
    m.config.word_dropout tr r.embD r.embDs

/-- The character-embedding block (drqa.py lines 134-141): encode the
batch's unique words, write the encodings into rows 1.. of the example's
lookup table (the in-place slice assignment of line 137, with row 0 kept
as the padding row), look up per-token character embeddings and
concatenate them to the word embeddings.  Returns the augmented question
and document embeddings and the lookup table as left by this block. -/
def charPair (m : DrQA) (tr : Bool) (r : Noise) (ex : Example) : Ten3 × Ten3 × Lookup :=
  if 0 < m.config.char_embed then
    match m.char_layer with
    | some cl =>
      let xc_rep := cl.F ex.c_emb ex.c_emb_mask tr r
      let lk : Lookup := { weight := ex.c_layer_lookup.weight.take 1 ++ xc_rep }
      let xqc_emb := lookupApply lk ex.xqc
      let xdc_emb := lookupApply lk ex.xdc
      (cat2 (xqEmbD m tr r ex) xqc_emb, cat2 (xdEmbD m tr r ex) xdc_emb, lk)
    | none => (xqEmbD m tr r ex, xdEmbD m tr r ex, ex.c_layer_lookup)
  else (xqEmbD m tr r ex, xdEmbD m tr r ex, ex.c_layer_lookup)

/-- The feed-forward dropout applied after the input projection's
rectifier (drqa.py lines 157-159): `F.dropout` at the framework default
probability `1/2`, gated by `dropout_ff > 0`. -/
def ffStep (cfg : Config) (tr : Bool) (mk : Nat → Nat → Nat → ℚ) (x : Ten3) : Ten3 :=
  if 0 < cfg.dropout_ff then Fdropout x (1 / 2) tr mk else x

/-- The question-aware augmentation block (drqa.py lines 143-148):
concatenate the attention-weighted question representation to the
document embeddings when `use_qemb` is enabled. -/
def qembStep (m : DrQA) (xd_emb xq_emb : Ten3) (mask : BMask) : Ten3 :=
  if m.config.use_qemb then
    match m.qemb_match with
    | some f => cat2 xd_emb (f xd_emb xq_emb mask)
    | none => xd_emb
  else xd_emb

/-- The manual-feature augmentation block (drqa.py lines 150-151). -/
def featStep (m : DrQA) (d : Ten3) (xd_f : Ten3) : Ten3 :=
  if 0 < m.config.num_features then cat2 d xd_f else d

/-- The document-side input projection block (drqa.py lines 154-158):
linear map, rectifier and feed-forward dropout when `resize_rnn_input`
is enabled. -/
def resizeStepD (m : DrQA) (tr : Bool) (mk : Nat → Nat → Nat → ℚ) (d : Ten3) : Ten3 :=
  if m.config.resize_rnn_input then
    match m.doc_linear with
    | some lin => ffStep m.config tr mk (relu3 (lin3 lin d))
    | none => d
  else d

/-- The question-side input projection block (drqa.py lines 154-159). -/
def resizeStepQ (m : DrQA) (tr : Bool) (mk : Nat → Nat → Nat → ℚ) (x : Ten3) : Ten3 :=
  if m.config.resize_rnn_input then
    match m.q_linear with
    | some lin => ffStep m.config tr mk (relu3 (lin3 lin x))
    | none => x
  else x

/-- The document-encoder input (drqa.py lines 143-159): word(+char)
embeddings, optionally concatenated with the attention-weighted question
representation and the manual features, optionally projected with
rectifier and feed-forward dropout. -/
def drnnInput (m : DrQA) (tr : Bool) (r : Noise) (ex : Example) : Ten3 :=
  resizeStepD m tr r.ffD
    (featStep m (qembStep m (charPair m tr r ex).2.1 (charPair m tr r ex).1 ex.xq_mask)
      ex.xd_f)

/-- The question-encoder input (drqa.py lines 154-159): the question
embeddings, optionally projected with rectifier and feed-forward
dropout. -/
def qInput (m : DrQA) (tr : Bool) (r : Noise) (ex : Example) : Ten3 :=
  resizeStepQ m tr r.ffQ (charPair m tr r ex).1

/-- The document self-attention block (drqa.py lines 164-167): widen the
encoder output with the self-aligned representation when enabled. -/
def selfAttnStep (m : DrQA) (dh : Ten3) (mask : BMask) : Ten3 :=
  if m.config.doc_self_attn then
    match m.doc_self_attn with
    | some f => cat2 dh (f dh dh mask)
    | none => dh
  else dh

/-- The encoded document (drqa.py lines 161-167): the document RNN
output, widened by document self-attention when enabled. -/
def docHiddens (m : DrQA) (tr : Bool) (r : Noise) (ex : Example) : Ten3 :=
  selfAttnStep m (m.doc_rnn (drnnInput m tr r ex) ex.xd_mask tr r) ex.xd_mask

/-- The encoded question (drqa.py line 170). -/
def questionHiddens (m : DrQA) (tr : Bool) (r : Noise) (ex : Example) : Ten3 :=
  m.question_rnn (qInput m tr r ex) ex.xq_mask tr r

/-- The question-merge weights (drqa.py lines 171-174): uniform weights
under the `avg` policy, the learned linear self-attention under
`self_attn`. -/
def qMergeWeights (m : DrQA) (tr : Bool) (r : Noise) (ex : Example) : List Vec :=
  if m.config.question_merge = "avg" then
    uniform_weights (questionHiddens m tr r ex) ex.xq_mask
  else if m.config.question_merge = "self_attn" then
    match m.self_attn with
    | some f => f (questionHiddens m tr r ex) ex.xq_mask
    | none => []
  else []

/-- The merged question summary vector (drqa.py line 175). -/
def questionHidden (m : DrQA) (tr : Bool) (r : Noise) (ex : Example) : List Vec :=
  weighted_avg (questionHiddens m tr r ex) (qMergeWeights m tr r ex)

/-- The start log-probability scores (drqa.py line 178). -/
def startScores (m : DrQA) (tr : Bool) (r : Noise) (ex : Example) : List Vec :=
  m.start_attn (docHiddens m tr r ex) (questionHidden m tr r ex) ex.xd_mask

/-- The question vector handed to the end scorer (drqa.py lines 179-180):
under span-dependency, the merged summary concatenated with the expected
document representation under the start distribution; otherwise the
unaugmented summary. -/
def endInput (m : DrQA) (tr : Bool) (r : Noise) (ex : Example) : List Vec :=
  if m.config.span_dependency then
    List.zipWith (· ++ ·) (questionHidden m tr r ex)
      (expectedDocB m.texp (docHiddens m tr r ex) (startScores m tr r ex))
  else questionHidden m tr r ex

/-- The end log-probability scores (drqa.py line 181). -/
def endScores (m : DrQA) (tr : Bool) (r : Noise) (ex : Example) : List Vec :=
  m.end_attn (docHiddens m tr r ex) (endInput m tr r ex) ex.xd_mask

/-- Embedding of `DrQA.forward` (drqa.py lines 105-189).  Besides the
returned mapping, the example is returned as it stands after the call so
that the in-place write into `ex['c_layer_lookup'].weight` performed by
the character block (line 137) is observable. -/
def DrQA.forward (m : DrQA) (tr : Bool) (r : Noise) (ex : Example) : Output × Example :=
  ({ score_s := startScores m tr r ex,
     score_e := endScores m tr r ex,
     targets := ex.targets,
     chunk_target_acc := chunkAcc ex.chunk_targets,
     chunk_any_acc := chunkAcc ex.chunk_targets },
   { ex with c_layer_lookup := (charPair m tr r ex).2.2 })

/-- Spec-side formula (claim C2): effective per-token embedding width =
word-embedding width + character width (0 if disabled). -/
def spec_embedding_width (cfg : Config) (wdim : Nat) : Nat :=
  wdim + (if 0 < cfg.char_embed then cfg.char_embed else 0)

/-- Spec-side formula (claim C2): document-encoder input width =
embedding width, plus it again under question-aware augmentation, plus
the manual-feature count; replaced by the hidden width under input
projection. -/
def spec_doc_encoder_input (cfg : Config) (wdim : Nat) : Nat :=
  if cfg.resize_rnn_input then cfg.hidden_size
  else spec_embedding_width cfg wdim +
       (if cfg.use_qemb then spec_embedding_width cfg wdim else 0) +
       cfg.num_features

/-- Spec-side formula (claim C2): question-encoder input width =
embedding width, replaced by the hidden width under input projection. -/
def spec_q_encoder_input (cfg : Config) (wdim : Nat) : Nat :=
  if cfg.resize_rnn_input then cfg.hidden_size else spec_embedding_width cfg wdim

/-- Spec-side formula (claim C2): encoder output width per side =
2 × hidden × (layer count if layer outputs are concatenated, else 1). -/
def spec_encoder_output (cfg : Config) : Nat :=
  2 * cfg.hidden_size * (if cfg.concat_rnn_layers then cfg.num_layers else 1)

/-- Spec-side formula (claim C2): document-side output width, widened by
the question width when document self-attention is enabled. -/
def spec_doc_encoder_output (cfg : Config) : Nat :=
  spec_encoder_output cfg + (if cfg.doc_self_attn then spec_encoder_output cfg else 0)

/-- Spec-side formula (claim C2): the end-scorer question-vector width =
question width, plus the document width under span-dependency. -/
def spec_end_q_width (cfg : Config) : Nat :=
  spec_encoder_output cfg + (if cfg.span_dependency then spec_doc_encoder_output cfg else 0)

/-- The (batch, len) dimension profile of a batched tensor. -/
def dims2 (x : Ten3) : List Nat := x.map List.length

/-- Elementwise matrix difference. -/
def matSub (a b : Mat) : Mat := List.zipWith (fun r1 r2 => List.zipWith (· - ·) r1 r2) a b

/-- Modelled from the spec: one gradient-driven parameter-update step of
the (out-of-scope) training loop on an embedding table: a parameter slot
receives its gradient update only when its `requires_grad` flag is set,
and is left untouched otherwise. -/
def sgdStep (e : Embedding) (g : Mat) : Embedding :=
  if e.requires_grad then { e with weight := matSub e.weight g } else e

/-- The embedding-table parameter slots structurally owned by the model
(the word-embedding table and, when present, the character-embedding
table inside the character layer), regardless of their trainability. -/
def DrQA.namedParams (m : DrQA) : List (String × Embedding) :=
  ("w_embedding", m.w_embedding) ::
  (match m.char_layer with
   | some cl =>
     (match cl.char_embedding with
      | some ce => [("char_layer.c_embedding", ce)]
      | none => [])
   | none => [])

/-- The model with only the `span_dependency` flag replaced. -/
def setSpan (m : DrQA) (b : Bool) : DrQA :=
  { m with config := { m.config with span_dependency := b } }

/-- The model with only the `dropout_ff` rate replaced. -/
def setFF (m : DrQA) (q : ℚ) : DrQA :=
  { m with config := { m.config with dropout_ff := q } }

/-- A minimal valid configuration used by concrete witnesses. -/
def cfgA : Config :=
  { hidden_size := 1, num_layers := 1, char_embed := 0, num_features := 0,
    fix_embeddings := false, use_qemb := false, doc_self_attn := false,
    resize_rnn_input := false, span_dependency := false, concat_rnn_layers := false,
    rnn_padding := false, variational_dropout := false, word_dropout := false,
    dropout_rnn_output := false, question_merge := "avg", rnn_type := "lstm",
    char_layer_kind := "lstm", filter_height := 1,
    dropout_emb := 0, dropout_rnn := 0, dropout_ff := 0, dropout_char := 0 }

/-- The witness configuration with an unsupported `question_merge`. -/
def cfg0 : Config := { cfgA with question_merge := "bogus" }

/-- A word-embedding table with one 1-wide row, trainable. -/
def embT : Embedding := { weight := [[3]], embedding_dim := 1, requires_grad := true }

/-- A trivial instantiation of the external sub-module library. -/
def bank0 : Bank :=
  { charF := fun _ _ _ _ => [[5]],
    mkSeqAttnMatch := fun _ => fun d _ _ => d,
    mkLinear := fun _ _ => fun v => v,
    mkStackedBRNN := fun _ _ => fun x _ _ _ => x,
    mkLinearSeqAttn := fun _ => fun _ _ => [],
    mkBilinearSeqAttn := fun _ _ => fun d _ _ => d.map (fun mm => mm.map (fun _ => 0)),
    texp := fun q => q }

/-- All-zero dropout-mask streams. -/
def noise0 : Noise :=
  { embQ := fun _ _ _ => 0, embD := fun _ _ _ => 0, embQs := fun _ _ => 0,
    embDs := fun _ _ => 0, ffD := fun _ _ _ => 0, ffQ := fun _ _ _ => 0 }

/-- All-one dropout-mask streams. -/
def noise1 : Noise :=
  { embQ := fun _ _ _ => 1, embD := fun _ _ _ => 1, embQs := fun _ _ => 1,
    embDs := fun _ _ => 1, ffD := fun _ _ _ => 1, ffQ := fun _ _ _ => 1 }

/-- A concrete one-example batch (no character fields in use). -/
def exA : Example :=
  { xq := [[0]], xq_mask := [[false]], xd := [[0, 0]], xd_f := [],
    xd_mask := [[false, false]], targets := [1], chunk_targets := [0, -1],
    c_emb := [], c_emb_mask := [], c_layer_lookup := { weight := [[0]] },
    xqc := [], xdc := [] }

/-- A concrete assembled model over `cfgA` with identity-like externals. -/
def mA : DrQA :=
  { config := cfgA, w_embedding := embT, char_layer := none, qemb_match := none,
    doc_linear := none, q_linear := none,
    doc_rnn := fun x _ _ _ => x, question_rnn := fun x _ _ _ => x,
    doc_self_attn := none, self_attn := none,
    start_attn := fun d _ _ => d.map (fun mm => mm.map (fun _ => 0)),
    end_attn := fun d _ _ => d.map (fun mm => mm.map (fun _ => 0)),
    texp := fun q => q }

/-- The witness configuration with character embedding enabled. -/
def cfg4 : Config := { cfgA with char_embed := 1 }

/-- A concrete character layer encoding every unique word to `[5]`. -/
def cl4 : CharLayer :=
  { char_embedding := none, input_size := 1, hidden_size := 1,
    F := fun _ _ _ _ => [[5]] }

/-- A concrete model with the character block active. -/
def m4 : DrQA := { mA with config := cfg4, char_layer := some cl4 }

/-- A concrete one-example batch with character fields: one unique word,
lookup table of two rows (padding row 0). -/
def ex4 : Example :=
  { exA with
    c_emb := [[0]],
    c_emb_mask := [[false]],
    c_layer_lookup := { weight := [[0], [0]] },
    xqc := [[1]],
    xdc := [[1, 1]] }

/-- The witness configuration with frozen word embeddings. -/
def cfg6 : Config := { cfgA with fix_embeddings := true }

/-- The witness configuration with frozen word embeddings and character
embedding enabled. -/
def cfg9 : Config := { cfgA with fix_embeddings := true, char_embed := 1 }

/-- A trainable character-embedding table for the C9 witness. -/
def cemb9 : Embedding := { weight := [[2]], embedding_dim := 1, requires_grad := true }

/-- C2: construction derives the per-token embedding width, the document-
and question-encoder input widths (replaced by the hidden width under
input projection), the per-side encoder output widths (document side
widened by the question width under document self-attention), and the
end-scorer question-vector width (widened by the document width under
span-dependency) exactly as the claim's formulas state. -/
theorem c2_dimension_arithmetic (cfg : Config) (wdim : Nat) :
    input_w_dim cfg wdim = spec_embedding_width cfg wdim ∧
    doc_input_size cfg wdim = spec_doc_encoder_input cfg wdim ∧
    q_input_size cfg wdim = spec_q_encoder_input cfg wdim ∧
    question_hidden_size cfg = spec_encoder_output cfg ∧
    doc_hidden_size cfg = spec_doc_encoder_output cfg ∧
    q_rep_size cfg = spec_end_q_width cfg := by
  refine ⟨?_, ?_, ?_, ?_, ?_, ?_⟩ <;>
    simp only [input_w_dim, spec_embedding_width, doc_input_size, spec_doc_encoder_input,
      q_input_size, spec_q_encoder_input, question_hidden_size, spec_encoder_output,
      doc_hidden_size, spec_doc_encoder_output, q_rep_size, spec_end_q_width] <;>
    split_ifs <;> first | rfl | omega

theorem mem_ite_single {α : Type} {c : Prop} [Decidable c] {x e : α}
    (h : e ∈ if c then [x] else ([] : List α)) : e = x := by
  split at h <;> simp_all

/-- C1 counterexample: with `question_merge = "bogus"` and all optional
sub-modules disabled, the construction-event trace allocates the document
and question encoders before the configuration error is raised, so the
error is not raised before any weight is allocated. -/
theorem c1_counterexample :
    cfg0.question_merge ∉ ["avg", "self_attn"] ∧
    (initEvents cfg0).takeWhile (fun e => !e.isRaise) =
      [InitEvent.allocDocRnn, InitEvent.allocQuestionRnn] ∧
    ¬ (((initEvents cfg0).takeWhile (fun e => !e.isRaise)).all
        (fun e => !e.isAlloc) = true) := by
  refine ⟨by decide, by decide, by decide⟩

/-- C1 (amended): constructing with a `question_merge` value outside the
two supported policies fails immediately with the configuration error and
no model is returned, and the error cuts off the allocation of the
merger-specific module and of the two span scorers — but it is raised
only after the encoder weights (and any enabled earlier optional
sub-modules) have been allocated. -/
theorem c1_invalid_merge_fails (bank : Bank) (cfg : Config) (w : Embedding)
    (c : Option Embedding) (h : cfg.question_merge ∉ ["avg", "self_attn"]) :
    DrQA.init bank cfg w c = Except.error ("question_merge = " ++ cfg.question_merge) ∧
    InitEvent.raiseNotImplemented cfg.question_merge ∈ initEvents cfg ∧
    (∀ e ∈ initEvents cfg,
      e ≠ InitEvent.allocSelfAttn ∧ e ≠ InitEvent.allocStartAttn ∧
      e ≠ InitEvent.allocEndAttn) := by
  refine ⟨?_, ?_, ?_⟩
  · simp [DrQA.init, h]
  · by_cases h1 : 0 < cfg.char_embed <;> by_cases h2 : cfg.use_qemb <;>
      by_cases h3 : cfg.resize_rnn_input <;> by_cases h4 : cfg.doc_self_attn <;>
      simp [initEvents, h, h1, h2, h3, h4]
  · intro e he
    have hn : InitEvent.allocSelfAttn ∉ initEvents cfg ∧
        InitEvent.allocStartAttn ∉ initEvents cfg ∧
        InitEvent.allocEndAttn ∉ initEvents cfg := by
      by_cases h1 : 0 < cfg.char_embed <;> by_cases h2 : cfg.use_qemb <;>
        by_cases h3 : cfg.resize_rnn_input <;> by_cases h4 : cfg.doc_self_attn <;>
        simp [initEvents, h, h1, h2, h3, h4]
    exact ⟨fun hh => hn.1 (hh ▸ he), fun hh => hn.2.1 (hh ▸ he),
      fun hh => hn.2.2 (hh ▸ he)⟩

/-- Witness for C1 (amended) at the concrete configuration `cfg0`. -/
theorem c1_invalid_merge_fails_witness :
    cfg0.question_merge ∉ ["avg", "self_attn"] ∧
    DrQA.init bank0 cfg0 embT none =
      Except.error ("question_merge = " ++ cfg0.question_merge) :=
  ⟨by decide, (c1_invalid_merge_fails bank0 cfg0 embT none (by decide)).1⟩

/-- C5: every forward call returns the start and end log-probability
tensors of the scoring pipeline, passes the gold span target through
unchanged, and reports the fraction of examples with a non-negative chunk
target under the two fields `chunk_target_acc` and `chunk_any_acc`,
which hold the identical value. -/
theorem c5_output_packaging (m : DrQA) (tr : Bool) (r : Noise) (ex : Example) :
    (m.forward tr r ex).1.score_s = startScores m tr r ex ∧
    (m.forward tr r ex).1.score_e = endScores m tr r ex ∧
    (m.forward tr r ex).1.targets = ex.targets ∧
    (m.forward tr r ex).1.chunk_target_acc =
      ((ex.chunk_targets.countP (fun t => decide (0 ≤ t)) : Nat) : ℚ) /
        ((ex.chunk_targets.length : Nat) : ℚ) ∧
    (m.forward tr r ex).1.chunk_any_acc = (m.forward tr r ex).1.chunk_target_acc :=
  ⟨rfl, rfl, rfl, rfl, rfl⟩

/-- C3: the start scores are the bilinear scorer applied to the encoded
document and the merged question summary; with span-dependency enabled
the end scorer receives that summary concatenated with the expected
document representation under the returned start distribution,
`Σ_i texp(score_s_i) · doc_i`, and with span-dependency disabled it
receives the same unaugmented summary the start scorer used. -/
theorem c3_span_dependency_end_scoring (m : DrQA) (tr : Bool) (r : Noise) (ex : Example) :
    (m.forward tr r ex).1.score_s =
      m.start_attn (docHiddens m tr r ex) (questionHidden m tr r ex) ex.xd_mask ∧
    (m.forward tr r ex).1.score_e =
      m.end_attn (docHiddens m tr r ex)
        (if m.config.span_dependency then
           List.zipWith (· ++ ·) (questionHidden m tr r ex)
             (expectedDocB m.texp (docHiddens m tr r ex) ((m.forward tr r ex).1.score_s))
         else questionHidden m tr r ex)
        ex.xd_mask := by
  constructor
  · rfl
  · by_cases h : m.config.span_dependency <;>
      simp [DrQA.forward, endScores, endInput, startScores, h]

theorem layersDropout_not_training (x : Ten3) (p : ℚ) (w : Bool)
    (mk3 : Nat → Nat → Nat → ℚ) (mk2 : Nat → Nat → ℚ) :
    layersDropout x p w false mk3 mk2 = x := by
  simp [layersDropout]

theorem Fdropout_not_training (x : Ten3) (p : ℚ) (mk : Nat → Nat → Nat → ℚ) :
    Fdropout x p false mk = x := by
  simp [Fdropout]

theorem ffStep_not_training (cfg : Config) (mk : Nat → Nat → Nat → ℚ) (x : Ten3) :
    ffStep cfg false mk x = x := by
  simp [ffStep, Fdropout_not_training]

theorem xqEmbD_eval (m : DrQA) (r : Noise) (ex : Example) :
    xqEmbD m false r ex = embLookup3 m.w_embedding ex.xq := by
  simp [xqEmbD, layersDropout_not_training]

theorem xdEmbD_eval (m : DrQA) (r : Noise) (ex : Example) :
    xdEmbD m false r ex = embLookup3 m.w_embedding ex.xd := by
  simp [xdEmbD, layersDropout_not_training]

theorem charPair_eval (m : DrQA) (r1 r2 : Noise) (ex : Example)
    (hchar : ∀ cl, m.char_layer = some cl →
      ∀ a b rr rr', cl.F a b false rr = cl.F a b false rr') :
    charPair m false r1 ex = charPair m false r2 ex := by
  unfold charPair
  by_cases h : 0 < m.config.char_embed
  · rw [if_pos h, if_pos h]
    cases hcl : m.char_layer with
    | none => simp [xqEmbD_eval, xdEmbD_eval]
    | some cl =>
      have hF := hchar cl hcl ex.c_emb ex.c_emb_mask r1 r2
      simp [xqEmbD_eval, xdEmbD_eval, hF]
  · rw [if_neg h, if_neg h]
    simp [xqEmbD_eval, xdEmbD_eval]

theorem resizeStepD_not_training (m : DrQA) (mk1 mk2 : Nat → Nat → Nat → ℚ) (d : Ten3) :
    resizeStepD m false mk1 d = resizeStepD m false mk2 d := by
  unfold resizeStepD
  by_cases h : m.config.resize_rnn_input = true
  · rw [if_pos h, if_pos h]
    rcases hdl : m.doc_linear with _ | lin <;> simp [ffStep_not_training]
  · rw [if_neg h, if_neg h]

theorem resizeStepQ_not_training (m : DrQA) (mk1 mk2 : Nat → Nat → Nat → ℚ) (x : Ten3) :
    resizeStepQ m false mk1 x = resizeStepQ m false mk2 x := by
  unfold resizeStepQ
  by_cases h : m.config.resize_rnn_input = true
  · rw [if_pos h, if_pos h]
    rcases hdl : m.q_linear with _ | lin <;> simp [ffStep_not_training]
  · rw [if_neg h, if_neg h]

theorem drnnInput_eval (m : DrQA) (r1 r2 : Noise) (ex : Example)
    (hchar : ∀ cl, m.char_layer = some cl →
      ∀ a b rr rr', cl.F a b false rr = cl.F a b false rr') :
    drnnInput m false r1 ex = drnnInput m false r2 ex := by
  unfold drnnInput
  rw [charPair_eval m r1 r2 ex hchar]
  exact resizeStepD_not_training m r1.ffD r2.ffD _

theorem qInput_eval (m : DrQA) (r1 r2 : Noise) (ex : Example)
    (hchar : ∀ cl, m.char_layer = some cl →
      ∀ a b rr rr', cl.F a b false rr = cl.F a b false rr') :
    qInput m false r1 ex = qInput m false r2 ex := by
  unfold qInput
  rw [charPair_eval m r1 r2 ex hchar]
  exact resizeStepQ_not_training m r1.ffQ r2.ffQ _

theorem docHiddens_eval (m : DrQA) (r1 r2 : Noise) (ex : Example)
    (hchar : ∀ cl, m.char_layer = some cl →
      ∀ a b rr rr', cl.F a b false rr = cl.F a b false rr')
    (hdoc : ∀ x mk rr rr', m.doc_rnn x mk false rr = m.doc_rnn x mk false rr') :
    docHiddens m false r1 ex = docHiddens m false r2 ex := by
  unfold docHiddens
  rw [drnnInput_eval m r1 r2 ex hchar, hdoc (drnnInput m false r2 ex) ex.xd_mask r1 r2]

theorem questionHiddens_eval (m : DrQA) (r1 r2 : Noise) (ex : Example)
    (hchar : ∀ cl, m.char_layer = some cl →
      ∀ a b rr rr', cl.F a b false rr = cl.F a b false rr')
    (hq : ∀ x mk rr rr', m.question_rnn x mk false rr = m.question_rnn x mk false rr') :
    questionHiddens m false r1 ex = questionHiddens m false r2 ex := by
  unfold questionHiddens
  rw [qInput_eval m r1 r2 ex hchar, hq (qInput m false r2 ex) ex.xq_mask r1 r2]

theorem questionHidden_eval (m : DrQA) (r1 r2 : Noise) (ex : Example)
    (hchar : ∀ cl, m.char_layer = some cl →
      ∀ a b rr rr', cl.F a b false rr = cl.F a b false rr')
    (hq : ∀ x mk rr rr', m.question_rnn x mk false rr = m.question_rnn x mk false rr') :
    questionHidden m false r1 ex = questionHidden m false r2 ex := by
  unfold questionHidden qMergeWeights
  rw [questionHiddens_eval m r1 r2 ex hchar hq]

theorem startScores_eval (m : DrQA) (r1 r2 : Noise) (ex : Example)
    (hchar : ∀ cl, m.char_layer = some cl →
      ∀ a b rr rr', cl.F a b false rr = cl.F a b false rr')
    (hdoc : ∀ x mk rr rr', m.doc_rnn x mk false rr = m.doc_rnn x mk false rr')
    (hq : ∀ x mk rr rr', m.question_rnn x mk false rr = m.question_rnn x mk false rr') :
    startScores m false r1 ex = startScores m false r2 ex := by
  unfold startScores
  rw [docHiddens_eval m r1 r2 ex hchar hdoc, questionHidden_eval m r1 r2 ex hchar hq]

theorem endScores_eval (m : DrQA) (r1 r2 : Noise) (ex : Example)
    (hchar : ∀ cl, m.char_layer = some cl →
      ∀ a b rr rr', cl.F a b false rr = cl.F a b false rr')
    (hdoc : ∀ x mk rr rr', m.doc_rnn x mk false rr = m.doc_rnn x mk false rr')
    (hq : ∀ x mk rr rr', m.question_rnn x mk false rr = m.question_rnn x mk false rr') :
    endScores m false r1 ex = endScores m false r2 ex := by
  unfold endScores endInput
  rw [docHiddens_eval m r1 r2 ex hchar hdoc, questionHidden_eval m r1 r2 ex hchar hq,
    startScores_eval m r1 r2 ex hchar hdoc hq]

/-- C7: in evaluation mode (training flag off) the forward computation is
deterministic: provided every stochastic sub-module ignores its dropout
randomness when not training (their §4.6/§4.2 contract), two forward
calls on the same model with the same input and different dropout-mask
samples produce equal outputs, because every dropout application in the
forward path is disabled. -/
theorem c7_eval_mode_deterministic (m : DrQA) (ex : Example) (r1 r2 : Noise)
    (hchar : ∀ cl, m.char_layer = some cl →
      ∀ a b rr rr', cl.F a b false rr = cl.F a b false rr')
    (hdoc : ∀ x mk rr rr', m.doc_rnn x mk false rr = m.doc_rnn x mk false rr')
    (hq : ∀ x mk rr rr', m.question_rnn x mk false rr = m.question_rnn x mk false rr') :
    m.forward false r1 ex = m.forward false r2 ex := by
  unfold DrQA.forward
  rw [startScores_eval m r1 r2 ex hchar hdoc hq, endScores_eval m r1 r2 ex hchar hdoc hq,
    charPair_eval m r1 r2 ex hchar]

/-- Witness for C7: the concrete model `mA` on the concrete batch `exA`
under two different mask samples. -/
theorem c7_eval_mode_deterministic_witness :
    DrQA.forward mA false noise0 exA = DrQA.forward mA false noise1 exA :=
  c7_eval_mode_deterministic mA exA noise0 noise1
    (fun cl h => by simp [mA] at h)
    (fun x mk rr rr' => rfl)
    (fun x mk rr rr' => rfl)

/-- C10: feed-forward dropout after the input projection's rectifier is
applied at the framework's default probability 1/2 whenever
`dropout_ff > 0`, regardless of the configured `dropout_ff` value;
`dropout_ff` acts only as an on/off gate (two forward passes whose
configurations differ only in two positive `dropout_ff` values agree),
and with `dropout_ff = 0` no dropout is applied after the projection. -/
theorem c10_ff_dropout_gate (cfg : Config) (tr : Bool) (mk : Nat → Nat → Nat → ℚ)
    (x : Ten3) (m : DrQA) (r : Noise) (ex : Example) (q1 q2 : ℚ)
    (h1 : 0 < q1) (h2 : 0 < q2) :
    (0 < cfg.dropout_ff → ffStep cfg tr mk x = Fdropout x (1 / 2) tr mk) ∧
    (cfg.dropout_ff = 0 → ffStep cfg tr mk x = x) ∧
    DrQA.forward (setFF m q1) tr r ex = DrQA.forward (setFF m q2) tr r ex := by
  refine ⟨?_, ?_, ?_⟩
  · intro h; simp [ffStep, h]
  · intro h; simp [ffStep, h]
  · simp only [DrQA.forward, startScores, endScores, endInput, questionHidden,
      qMergeWeights, questionHiddens, docHiddens, selfAttnStep, drnnInput, qInput,
      resizeStepD, resizeStepQ, featStep, qembStep, charPair, xqEmbD, xdEmbD,
      ffStep, setFF]
    simp [h1, h2]

/-- Witness for C10 at `dropout_ff` values 1 and 2 on the concrete model
`mA` and batch `exA`. -/
theorem c10_ff_dropout_gate_witness :
    (0 : ℚ) < 1 ∧ (0 : ℚ) < 2 ∧
    DrQA.forward (setFF mA 1) true noise1 exA = DrQA.forward (setFF mA 2) true noise1 exA :=
  ⟨by norm_num, by norm_num,
    (c10_ff_dropout_gate cfgA true (fun _ _ _ => 1) [[[1]]] mA noise1 exA 1 2
      (by norm_num) (by norm_num)).2.2⟩

theorem map_eq_self_mem {α : Type} {f : α → α} {l : List α} (h : l.map f = l) :
    ∀ x ∈ l, f x = x := by
  induction l with
  | nil => simp
  | cons a as ih =>
    simp only [List.map_cons, List.cons.injEq] at h
    intro x hx
    rcases List.mem_cons.mp hx with rfl | hx
    · exact h.1
    · exact ih h.2 x hx

theorem matSub_map_ones (a : Mat) :
    matSub a (a.map (fun r => r.map (fun _ => (1 : ℚ)))) =
      a.map (fun r => r.map (fun v => v - 1)) := by
  unfold matSub
  induction a with
  | nil => rfl
  | cons r rs ih =>
    simp only [List.map_cons, List.zipWith_cons_cons, List.cons.injEq]
    refine ⟨?_, ih⟩
    induction r with
    | nil => rfl
    | cons v vs ihv =>
      simp only [List.map_cons, List.zipWith_cons_cons, List.cons.injEq]
      exact ⟨trivial, ihv⟩

/-- C6: when `fix_embeddings` is set, construction marks the word-embedding
weights non-trainable, so a gradient-driven parameter-update step leaves
them unchanged while they remain structurally part of the model's
parameter set; when `fix_embeddings` is off, the (trainable) word
embeddings can change under an update step. -/
theorem c6_fix_embeddings (bank : Bank) (cfg : Config) (w : Embedding)
    (c : Option Embedding) (m : DrQA)
    (hok : DrQA.init bank cfg w c = Except.ok m) :
    (cfg.fix_embeddings = true →
      m.w_embedding.requires_grad = false ∧
      (∀ g, sgdStep m.w_embedding g = m.w_embedding) ∧
      ("w_embedding", m.w_embedding) ∈ m.namedParams) ∧
    (cfg.fix_embeddings = false → w.requires_grad = true →
      (∃ row ∈ w.weight, row ≠ []) →
      ∃ g, sgdStep m.w_embedding g ≠ m.w_embedding) := by
  simp only [DrQA.init] at hok
  split at hok
  · exact absurd hok (by simp)
  · injection hok with hm
    subst hm
    constructor
    · intro hfix
      refine ⟨by simp [hfix], ?_, ?_⟩
      · intro g; simp [hfix, sgdStep]
      · simp [DrQA.namedParams]
    · intro hfix hreq hne
      obtain ⟨row, hrow, hrne⟩ := hne
      refine ⟨w.weight.map (fun r => r.map (fun _ => (1 : ℚ))), ?_⟩
      simp only [hfix, Bool.false_eq_true, if_false, sgdStep, hreq, if_true]
      intro heq
      have hweq : matSub w.weight (w.weight.map (fun r => r.map (fun _ => (1 : ℚ)))) =
          w.weight := congrArg Embedding.weight heq
      rw [matSub_map_ones] at hweq
      have hfr := map_eq_self_mem hweq row hrow
      obtain ⟨v, hv⟩ := List.exists_mem_of_ne_nil row hrne
      have := map_eq_self_mem hfr v hv
      linarith [this]

/-- Witness for C6 at the concrete frozen configuration `cfg6`. -/
theorem c6_fix_embeddings_witness :
    ∃ m, DrQA.init bank0 cfg6 embT none = Except.ok m ∧
      m.w_embedding.requires_grad = false ∧
      (∀ g, sgdStep m.w_embedding g = m.w_embedding) ∧
      ("w_embedding", m.w_embedding) ∈ m.namedParams :=
  ⟨_, rfl, (c6_fix_embeddings bank0 cfg6 embT none _ rfl).1 rfl⟩

/-- C9: under `fix_embeddings`, construction freezes only the word-embedding
table; the character-embedding table stored inside the character layer
(when character embedding is enabled) keeps its trainability flag and
stays in the parameter set. -/
theorem c9_char_params_stay_trainable (bank : Bank) (cfg : Config) (w : Embedding)
    (ce : Embedding) (m : DrQA)
    (hchar : 0 < cfg.char_embed) (hfix : cfg.fix_embeddings = true)
    (hce : ce.requires_grad = true)
    (hok : DrQA.init bank cfg w (some ce) = Except.ok m) :
    m.w_embedding.requires_grad = false ∧
    ∃ cl, m.char_layer = some cl ∧ cl.char_embedding = some ce ∧
      ("char_layer.c_embedding", ce) ∈ m.namedParams ∧ ce.requires_grad = true := by
  simp only [DrQA.init] at hok
  split at hok
  · exact absurd hok (by simp)
  · injection hok with hm
    subst hm
    refine ⟨by simp [hfix], ?_⟩
    refine ⟨{ char_embedding := some ce, input_size := cfg.char_embed,
              hidden_size := cfg.char_embed, F := bank.charF },
      by simp [hchar], rfl, ?_, hce⟩
    simp [DrQA.namedParams, hchar]

/-- Witness for C9 at the concrete configuration `cfg9` with the
trainable character table `cemb9`. -/
theorem c9_char_params_stay_trainable_witness :
    0 < cfg9.char_embed ∧ cfg9.fix_embeddings = true ∧ cemb9.requires_grad = true ∧
    ∃ m, DrQA.init bank0 cfg9 embT (some cemb9) = Except.ok m ∧
      m.w_embedding.requires_grad = false ∧
      ∃ cl, m.char_layer = some cl ∧ cl.char_embedding = some cemb9 ∧
        ("char_layer.c_embedding", cemb9) ∈ m.namedParams ∧ cemb9.requires_grad = true :=
  ⟨by decide, rfl, rfl,
    ⟨_, rfl, c9_char_params_stay_trainable bank0 cfg9 embT cemb9 _ (by decide) rfl rfl rfl⟩⟩

/-- C4: concrete evaluation of the forward call at a character-enabled
model showing the in-place slice assignment of drqa.py line 137: the
example's embedding-lookup weight tensor is `[[0], [0]]` before the call
and `[[0], [5]]` (padding row kept, row 1 overwritten with the
recomputed character encoding) after it — the forward evaluation writes
into the shared embedding-lookup weight, contradicting the claim. -/
theorem c4_forward_mutates_lookup :
    ex4.c_layer_lookup.weight = [[0], [0]] ∧
    (DrQA.forward m4 true noise0 ex4).2.c_layer_lookup.weight = [[0], [5]] ∧
    (DrQA.forward m4 true noise0 ex4).2.c_layer_lookup.weight ≠
      ex4.c_layer_lookup.weight := by
  refine ⟨rfl, by decide, by decide⟩

theorem mapIdx_dims {α β : Type} (f : Nat → List α → List β)
    (h : ∀ i m, (f i m).length = m.length) (x : List (List α)) :
    (x.mapIdx f).map List.length = x.map List.length := by
  rw [List.mapIdx_eq_enum_map, List.map_map]
  have h2 : ∀ p ∈ x.enum, (List.length ∘ Function.uncurry f) p =
      (fun p : Nat × List α => p.2.length) p := fun p _ => h p.1 p.2
  rw [List.map_congr_left h2]
  have h3 : (fun p : Nat × List α => p.2.length) = List.length ∘ Prod.snd := rfl
  rw [h3, ← List.map_map, List.enum_map_snd]

theorem dims2_applyMask3 (mk : Nat → Nat → Nat → ℚ) (s : ℚ) (x : Ten3) :
    dims2 (applyMask3 mk s x) = dims2 x :=
  mapIdx_dims _ (fun i m => List.length_mapIdx) x

theorem dims2_applyMaskShared (mk : Nat → Nat → ℚ) (s : ℚ) (x : Ten3) :
    dims2 (applyMaskShared mk s x) = dims2 x :=
  mapIdx_dims _ (fun i m => List.length_mapIdx) x

theorem dims2_layersDropout (x : Ten3) (p : ℚ) (w tr : Bool)
    (mk3 : Nat → Nat → Nat → ℚ) (mk2 : Nat → Nat → ℚ) :
    dims2 (layersDropout x p w tr mk3 mk2) = dims2 x := by
  unfold layersDropout
  split
  · split
    · exact dims2_applyMaskShared mk2 _ x
    · exact dims2_applyMask3 mk3 _ x
  · rfl

theorem dims2_Fdropout (x : Ten3) (p : ℚ) (tr : Bool) (mk : Nat → Nat → Nat → ℚ) :
    dims2 (Fdropout x p tr mk) = dims2 x := by
  unfold Fdropout
  split
  · exact dims2_applyMask3 mk _ x
  · rfl

theorem dims2_ffStep (cfg : Config) (tr : Bool) (mk : Nat → Nat → Nat → ℚ) (x : Ten3) :
    dims2 (ffStep cfg tr mk x) = dims2 x := by
  unfold ffStep
  split
  · exact dims2_Fdropout x _ tr mk
  · rfl

theorem dims2_lin3 (f : Vec → Vec) (x : Ten3) : dims2 (lin3 f x) = dims2 x := by
  simp [dims2, lin3, List.map_map, Function.comp_def, List.length_map]

theorem dims2_relu3 (x : Ten3) : dims2 (relu3 x) = dims2 x := by
  simp [dims2, relu3, List.map_map, Function.comp_def, List.length_map]

theorem dims2_embLookup3 (e : Embedding) (ids : List (List Nat)) :
    dims2 (embLookup3 e ids) = ids.map List.length := by
  simp [dims2, embLookup3, List.map_map, Function.comp_def, List.length_map]

theorem dims2_lookupApply (lk : Lookup) (ids : List (List Nat)) :
    dims2 (lookupApply lk ids) = ids.map List.length := by
  simp [dims2, lookupApply, List.map_map, Function.comp_def, List.length_map]

theorem dims2_cat2 (a b : Ten3) (h : dims2 b = dims2 a) : dims2 (cat2 a b) = dims2 a := by
  induction a generalizing b with
  | nil => cases b <;> simp [cat2, dims2]
  | cons m as ih =>
    cases b with
    | nil => simp [dims2] at h
    | cons mb bs =>
      simp only [dims2, List.map_cons, List.cons.injEq] at h
      simp only [cat2, List.zipWith_cons_cons, dims2, List.map_cons, List.cons.injEq]
      constructor
      · rw [List.length_zipWith, h.1, Nat.min_self]
      · exact ih bs h.2

theorem dims2_xdEmbD (m : DrQA) (tr : Bool) (r : Noise) (ex : Example) :
    dims2 (xdEmbD m tr r ex) = ex.xd.map List.length := by
  unfold xdEmbD
  rw [dims2_layersDropout, dims2_embLookup3]

theorem dims2_charPair_d (m : DrQA) (tr : Bool) (r : Noise) (ex : Example)
    (hxdc : 0 < m.config.char_embed → ex.xdc.map List.length = ex.xd.map List.length) :
    dims2 (charPair m tr r ex).2.1 = ex.xd.map List.length := by
  unfold charPair
  by_cases h : 0 < m.config.char_embed
  · rw [if_pos h]
    rcases hcl : m.char_layer with _ | cl
    · exact dims2_xdEmbD m tr r ex
    · simp only
      rw [dims2_cat2]
      · exact dims2_xdEmbD m tr r ex
      · rw [dims2_lookupApply, dims2_xdEmbD, hxdc h]
  · rw [if_neg h]
    exact dims2_xdEmbD m tr r ex

theorem dims2_qembStep (m : DrQA) (xd_emb xq_emb : Ten3) (mask : BMask)
    (hqemb : ∀ f, m.qemb_match = some f →
      ∀ d q mk, dims2 (f d q mk) = dims2 d) :
    dims2 (qembStep m xd_emb xq_emb mask) = dims2 xd_emb := by
  unfold qembStep
  by_cases h : m.config.use_qemb = true
  · rw [if_pos h]
    rcases hqm : m.qemb_match with _ | f
    · rfl
    · simp only
      exact dims2_cat2 _ _ (hqemb f hqm xd_emb xq_emb mask)
  · rw [if_neg h]

theorem dims2_featStep (m : DrQA) (d xd_f : Ten3)
    (hxdf : 0 < m.config.num_features → dims2 xd_f = dims2 d) :
    dims2 (featStep m d xd_f) = dims2 d := by
  unfold featStep
  by_cases h : 0 < m.config.num_features
  · rw [if_pos h]
    exact dims2_cat2 d xd_f (hxdf h)
  · rw [if_neg h]

theorem dims2_resizeStepD (m : DrQA) (tr : Bool) (mk : Nat → Nat → Nat → ℚ) (d : Ten3) :
    dims2 (resizeStepD m tr mk d) = dims2 d := by
  unfold resizeStepD
  by_cases h : m.config.resize_rnn_input = true
  · rw [if_pos h]
    rcases hdl : m.doc_linear with _ | lin
    · rfl
    · simp only
      rw [dims2_ffStep, dims2_relu3, dims2_lin3]
  · rw [if_neg h]

theorem dims2_selfAttnStep (m : DrQA) (dh : Ten3) (mask : BMask)
    (hself : ∀ f, m.doc_self_attn = some f →
      ∀ x y mk, dims2 (f x y mk) = dims2 x) :
    dims2 (selfAttnStep m dh mask) = dims2 dh := by
  unfold selfAttnStep
  by_cases h : m.config.doc_self_attn = true
  · rw [if_pos h]
    rcases hsa : m.doc_self_attn with _ | f
    · rfl
    · simp only
      exact dims2_cat2 _ _ (hself f hsa dh dh mask)
  · rw [if_neg h]

theorem dims2_drnnInput (m : DrQA) (tr : Bool) (r : Noise) (ex : Example)
    (hqemb : ∀ f, m.qemb_match = some f →
      ∀ d q mk, dims2 (f d q mk) = dims2 d)
    (hxdc : 0 < m.config.char_embed → ex.xdc.map List.length = ex.xd.map List.length)
    (hxdf : 0 < m.config.num_features → dims2 ex.xd_f = ex.xd.map List.length) :
    dims2 (drnnInput m tr r ex) = ex.xd.map List.length := by
  unfold drnnInput
  rw [dims2_resizeStepD, dims2_featStep, dims2_qembStep m _ _ _ hqemb,
    dims2_charPair_d m tr r ex hxdc]
  intro h
  rw [hxdf h, dims2_qembStep m _ _ _ hqemb, dims2_charPair_d m tr r ex hxdc]

theorem dims2_docHiddens (m : DrQA) (tr : Bool) (r : Noise) (ex : Example)
    (hqemb : ∀ f, m.qemb_match = some f →
      ∀ d q mk, dims2 (f d q mk) = dims2 d)
    (hself : ∀ f, m.doc_self_attn = some f →
      ∀ x y mk, dims2 (f x y mk) = dims2 x)
    (hrnn : ∀ x mk t rr, dims2 (m.doc_rnn x mk t rr) = dims2 x)
    (hxdc : 0 < m.config.char_embed → ex.xdc.map List.length = ex.xd.map List.length)
    (hxdf : 0 < m.config.num_features → dims2 ex.xd_f = ex.xd.map List.length) :
    dims2 (docHiddens m tr r ex) = ex.xd.map List.length := by
  unfold docHiddens
  rw [dims2_selfAttnStep m _ _ hself, hrnn,
    dims2_drnnInput m tr r ex hqemb hxdc hxdf]

/-- C8: for a fixed input and two configurations differing only in the
`span_dependency` flag, the start scores are identical, the end scorer
receives the same encoded document and document mask and differs only in
its input question vector, and — under the shape contracts of the
external encoder and scorers — both returned score tensors keep the
shape (batch, per-example document length) for either flag value. -/
theorem c8_span_toggle_shape (m : DrQA) (tr : Bool) (r : Noise) (ex : Example)
    (b1 b2 : Bool)
    (hqemb : ∀ f, m.qemb_match = some f →
      ∀ d q mk, dims2 (f d q mk) = dims2 d)
    (hself : ∀ f, m.doc_self_attn = some f →
      ∀ x y mk, dims2 (f x y mk) = dims2 x)
    (hrnn : ∀ x mk t rr, dims2 (m.doc_rnn x mk t rr) = dims2 x)
    (hxdc : 0 < m.config.char_embed → ex.xdc.map List.length = ex.xd.map List.length)
    (hxdf : 0 < m.config.num_features → dims2 ex.xd_f = ex.xd.map List.length)
    (hstart : ∀ d q mk, (m.start_attn d q mk).map List.length = d.map List.length)
    (hend : ∀ d q mk, (m.end_attn d q mk).map List.length = d.map List.length) :
    (DrQA.forward (setSpan m b1) tr r ex).1.score_s =
      (DrQA.forward (setSpan m b2) tr r ex).1.score_s ∧
    (DrQA.forward (setSpan m b1) tr r ex).1.score_e =
      m.end_attn (docHiddens m tr r ex) (endInput (setSpan m b1) tr r ex) ex.xd_mask ∧
    (DrQA.forward (setSpan m b2) tr r ex).1.score_e =
      m.end_attn (docHiddens m tr r ex) (endInput (setSpan m b2) tr r ex) ex.xd_mask ∧
    (DrQA.forward (setSpan m b1) tr r ex).1.score_s.map List.length =
      ex.xd.map List.length ∧
    (DrQA.forward (setSpan m b1) tr r ex).1.score_e.map List.length =
      ex.xd.map List.length ∧
    (DrQA.forward (setSpan m b2) tr r ex).1.score_e.map List.length =
      ex.xd.map List.length := by
  have hss : ∀ b : Bool, (DrQA.forward (setSpan m b) tr r ex).1.score_s =
      m.start_attn (docHiddens m tr r ex) (questionHidden m tr r ex) ex.xd_mask :=
    fun b => rfl
  have hse : ∀ b : Bool, (DrQA.forward (setSpan m b) tr r ex).1.score_e =
      m.end_attn (docHiddens m tr r ex) (endInput (setSpan m b) tr r ex) ex.xd_mask :=
    fun b => rfl
  have hdims : dims2 (docHiddens m tr r ex) = ex.xd.map List.length :=
    dims2_docHiddens m tr r ex hqemb hself hrnn hxdc hxdf
  refine ⟨by rw [hss b1, hss b2], hse b1, hse b2, ?_, ?_, ?_⟩
  · rw [hss b1, hstart]; exact hdims
  · rw [hse b1, hend]; exact hdims
  · rw [hse b2, hend]; exact hdims

/-- Witness for C8 on the concrete model `mA` and batch `exA`, toggling
`span_dependency` between off and on. -/
theorem c8_span_toggle_shape_witness :
    (DrQA.forward (setSpan mA false) true noise0 exA).1.score_s =
      (DrQA.forward (setSpan mA true) true noise0 exA).1.score_s ∧
    (DrQA.forward (setSpan mA false) true noise0 exA).1.score_s.map List.length =
      exA.xd.map List.length ∧
    (DrQA.forward (setSpan mA false) true noise0 exA).1.score_e.map List.length =
      exA.xd.map List.length ∧
    (DrQA.forward (setSpan mA true) true noise0 exA).1.score_e.map List.length =
      exA.xd.map List.length := by
  have h := c8_span_toggle_shape mA true noise0 exA false true
    (fun f hf => by simp [mA] at hf)
    (fun f hf => by simp [mA] at hf)
    (fun x mk t rr => rfl)
    (fun h => absurd h (by decide))
    (fun h => absurd h (by decide))
    (fun d q mk => by simp [mA, List.map_map, Function.comp_def, List.length_map])
    (fun d q mk => by simp [mA, List.map_map, Function.comp_def, List.length_map])
  exact ⟨h.1, h.2.2.2.1, h.2.2.2.2.1, h.2.2.2.2.2⟩
